import Mathlib

/-!
Shallow embedding of the GOELink school-calendar core (src/js/app.js):
the recurrence expander (form-submit handler of `openScheduleModal`,
lines 882-919), the calendar projector `transformEvents` (lines 636-693)
and the search filter bound in `initCalendar` (lines 479-512).

Calendar dates are modelled as integer day ordinals (days since
1970-01-01, the value `Date.getTime() / 86400000` of a `new
Date("YYYY-MM-DD")`, which is midnight UTC).  The deployment locale is
east of UTC (the app is Korean), so the local civil date at such an
instant equals the UTC civil date and the `setDate`/`setMonth` cursor
arithmetic of the source acts on the UTC civil triple; conversions
between ordinals and civil (year, month, day) triples use the standard
civil-calendar algorithms over floored integer division.
-/

namespace GOELink

/-- Day ordinal of a civil (year, month, day) triple, days since
1970-01-01.  The formula is linear in `d`, so an out-of-range day such
as February 31 normalises forward into the following month exactly as
JavaScript `Date` normalises it; a month `13` likewise denotes January
of the next year. -/
def daysFromCivil (y m d : Int) : Int :=
  let y' : Int := if m ≤ 2 then y - 1 else y
  let era : Int := Int.fdiv y' 400
  let yoe : Int := y' - era * 400
  let mp : Int := if m > 2 then m - 3 else m + 9
  let doy : Int := Int.fdiv (153 * mp + 2) 5 + d - 1
  let doe : Int := yoe * 365 + Int.fdiv yoe 4 - Int.fdiv yoe 100 + doy
  era * 146097 + doe - 719468

/-- Civil (year, month, day) triple of a day ordinal. -/
def civilFromDays (z : Int) : Int × Int × Int :=
  let z' : Int := z + 719468
  let era : Int := Int.fdiv z' 146097
  let doe : Int := z' - era * 146097
  let yoe : Int :=
    Int.fdiv (doe - Int.fdiv doe 1460 + Int.fdiv doe 36524 - Int.fdiv doe 146096) 365
  let y0 : Int := yoe + era * 400
  let doy : Int := doe - (365 * yoe + Int.fdiv yoe 4 - Int.fdiv yoe 100)
  let mp : Int := Int.fdiv (5 * doy + 2) 153
  let d : Int := doy - Int.fdiv (153 * mp + 2) 5 + 1
  let m : Int := if mp < 10 then mp + 3 else mp - 9
  (if m ≤ 2 then y0 + 1 else y0, m, d)

/-- Recurrence frequency, the value of the `r-freq` select
(`rFreq.value` in the source). -/
inductive Freq where
  | weekly
  | biweekly
  | monthly
deriving DecidableEq

/-- One advance of the mutable date cursor `curr` of the recurrence
loop (src/js/app.js lines 912-914): `curr.setDate(curr.getDate() + 7)`,
`curr.setDate(curr.getDate() + 14)`, or `curr.setMonth(curr.getMonth()
+ 1)`.  The monthly case keeps the day-of-month field and renormalises,
which `daysFromCivil` performs for the possibly out-of-range day. -/
def stepDate (freq : Freq) (z : Int) : Int :=
  match freq with
  | .weekly => z + 7
  | .biweekly => z + 14
  | .monthly =>
    let c := civilFromDays z
    daysFromCivil c.1 (c.2.1 + 1) c.2.2

/-- The template a recurrence expansion starts from: the `baseData`
fields of the form-submit handler together with the entered start and
end dates (`startDateStr`, `endDateStr`). -/
structure ScheduleTemplate where
  title : String
  dept_id : String
  visibility : String
  description : Option String
  is_printable : Bool
  author_id : String
  start_date : Int
  end_date : Int
deriving DecidableEq

/-- The recurrence policy of the form: frequency (`rFreq.value`) and
the repeat-until date (`rUntil.value`). -/
structure RecurrencePolicy where
  frequency : Freq
  until_date : Int
deriving DecidableEq

/-- One concrete dated occurrence pushed into `batchData`:
`{...baseData, start_date, end_date}`. -/
structure ScheduleInstance where
  title : String
  dept_id : String
  visibility : String
  description : Option String
  is_printable : Bool
  author_id : String
  start_date : Int
  end_date : Int
deriving DecidableEq

/-- The error surfaced when the repeat-until date is not strictly after
the start date (`alert('반복 종료일은 시작일 이후여야 합니다.')` followed by an
early return, src/js/app.js lines 886-890). -/
inductive RecurrenceError where
  | InvalidRecurrenceRange
deriving DecidableEq

/-- The record `{...baseData, start_date: s, end_date: e}`. -/
def mkInstance (t : ScheduleTemplate) (s e : Int) : ScheduleInstance :=
  { title := t.title, dept_id := t.dept_id, visibility := t.visibility,
    description := t.description, is_printable := t.is_printable,
    author_id := t.author_id, start_date := s, end_date := e }

/-- The expansion loop `while (curr <= until && limit < 52)`
(src/js/app.js lines 901-917): emit `{...baseData, start_date: curr,
end_date: curr + duration}`, advance the cursor by the frequency step
and increment `limit`.  The counter is rendered as the remaining fuel
`rem = 52 - limit`, counting down from 52, so the source's `limit < 52`
guard is the `0` case. -/
def expandLoop (t : ScheduleTemplate) (freq : Freq) (duration untilD : Int) :
    Int → Nat → List ScheduleInstance
  | _, 0 => []
  | curr, rem + 1 =>
    if curr ≤ untilD then
      mkInstance t curr (curr + duration) :: expandLoop t freq duration untilD (stepDate freq curr) rem
    else
      []

/-- The fallback `if (batchData.length === 0) batchData.push({...baseData,
start_date: startDateStr, end_date: endDateStr})` (src/js/app.js line
919). -/
def withFallback (t : ScheduleTemplate) (batch : List ScheduleInstance) :
    List ScheduleInstance :=
  if batch.isEmpty then [mkInstance t t.start_date t.end_date] else batch

/-- The recurrence expansion of the form-submit handler
(src/js/app.js lines 882-919): reject `until <= start`, otherwise run
the 52-bounded loop from `curr = start` with the template's duration
`endDateStr - startDateStr`, and fall back to the single original
record when the loop emitted nothing. -/
def expand (t : ScheduleTemplate) (p : RecurrencePolicy) :
    Except RecurrenceError (List ScheduleInstance) :=
  if p.until_date ≤ t.start_date then
    .error .InvalidRecurrenceRange
  else
    .ok (withFallback t
      (expandLoop t p.frequency (t.end_date - t.start_date) p.until_date t.start_date 52))

instance {ε α : Type} [DecidableEq ε] [DecidableEq α] : DecidableEq (Except ε α) :=
  fun a b =>
    match a, b with
    | .ok x, .ok y =>
      if h : x = y then isTrue (by rw [h]) else isFalse (by intro hc; cases hc; exact h rfl)
    | .error x, .error y =>
      if h : x = y then isTrue (by rw [h]) else isFalse (by intro hc; cases hc; exact h rfl)
    | .ok _, .error _ => isFalse (by intro hc; cases hc)
    | .error _, .ok _ => isFalse (by intro hc; cases hc)

/-- An active department row as fetched by `fetchDepartments`
(src/js/app.js lines 610-622). -/
structure Department where
  id : String
  dept_name : String
  dept_color : Option String
  is_active : Bool
  sort_order : Int
deriving DecidableEq

/-- A schedule row as fetched by `fetchSchedules` and consumed by
`transformEvents` and the search filter.  Nullable text columns are
`Option String`, with `none` standing for SQL null / JS `undefined`. -/
structure ScheduleRecord where
  id : String
  title : String
  start_date : String
  end_date : String
  dept_id : String
  description : Option String
  visibility : String
  is_printable : Bool
deriving DecidableEq

/-- The settings row consumed by `transformEvents`: `fixed_holidays`
maps 4-digit month-day codes to names, `variable_holidays` maps full
date strings to names (both kept in JS object-key order), and
`academic_year` may be absent. -/
structure Settings where
  fixed_holidays : List (String × String)
  variable_holidays : List (String × String)
  academic_year : Option Nat
deriving DecidableEq

/-- The `extendedProps` object attached to a schedule event. -/
structure ExtendedProps where
  deptId : String
  description : Option String
  visibility : String
  isPrintable : Bool
deriving DecidableEq

/-- The unified FullCalendar event object built by `transformEvents`.
Fields a given push statement does not set are `none` (JS
`undefined`). -/
structure CalendarEntry where
  id : Option String
  title : String
  start : String
  end_ : Option String
  display : Option String
  className : Option String
  allDay : Option Bool
  backgroundColor : Option String
  borderColor : Option String
  extendedProps : Option ExtendedProps
deriving DecidableEq

/-- JavaScript `a || b` for a nullable string `a`: both `null` /
`undefined` and the empty string are falsy. -/
def jsOrStr : Option String → String → String
  | some s, b => if s = "" then b else s
  | none, b => b

/-- JavaScript `a || b` for a nullable number `a`: both `null` /
`undefined` and `0` are falsy. -/
def jsOrNat : Option Nat → Nat → Nat
  | some n, b => if n = 0 then b else n
  | none, b => b

/-- The lookup through the plain object built by
`departments.forEach(d => deptMap[d.id] = d)` (src/js/app.js lines
671-672): on duplicate ids the later assignment wins, hence the find
over the reversed list. -/
def deptLookup (departments : List Department) (id : String) : Option Department :=
  departments.reverse.find? (fun d => d.id == id)

/-- The background event pushed for one fixed holiday (src/js/app.js
lines 646-655): the start date string concatenates the year with
`mmdd.substring(0, 2)` and `mmdd.substring(2, 4)`. -/
def fixedHolidayEntry (yearStr mmdd name : String) : CalendarEntry :=
  { id := none, title := name,
    start := yearStr ++ "-" ++ mmdd.take 2 ++ "-" ++ (mmdd.drop 2).take 2,
    end_ := none, display := some "background",
    className := some "holiday-bg-event", allDay := some true,
    backgroundColor := none, borderColor := none, extendedProps := none }

/-- The background event pushed for one variable holiday
(src/js/app.js lines 658-667). -/
def variableHolidayEntry (dateStr name : String) : CalendarEntry :=
  { id := none, title := name, start := dateStr,
    end_ := none, display := some "background",
    className := some "holiday-bg-event", allDay := some true,
    backgroundColor := none, borderColor := none, extendedProps := none }

/-- The holiday part of `transformEvents` (src/js/app.js lines
640-668), guarded by `if (settings)`.  `nowYear` is the ambient
`new Date().getFullYear()` used as fallback when `academic_year` is
falsy. -/
def holidayEntries : Option Settings → Nat → List CalendarEntry
  | none, _ => []
  | some st, nowYear =>
    let yearStr := toString (jsOrNat st.academic_year nowYear)
    st.fixed_holidays.map (fun p => fixedHolidayEntry yearStr p.1 p.2)
      ++ st.variable_holidays.map (fun p => variableHolidayEntry p.1 p.2)

/-- The foreground event pushed for one schedule row (src/js/app.js
lines 674-690): `deptMap[s.dept_id] || {}` then
`dept.dept_color || '#3788d8'`. -/
def scheduleEntry (departments : List Department) (s : ScheduleRecord) : CalendarEntry :=
  let dept := deptLookup departments s.dept_id
  let color := jsOrStr (dept.bind (fun d => d.dept_color)) "#3788d8"
  { id := some s.id, title := s.title, start := s.start_date,
    end_ := some s.end_date, display := none, className := none,
    allDay := none, backgroundColor := some color, borderColor := some color,
    extendedProps := some { deptId := s.dept_id, description := s.description,
                            visibility := s.visibility, isPrintable := s.is_printable } }

/-- The calendar projector `transformEvents` (src/js/app.js lines
636-693): holiday background events are pushed first, then one
foreground event per schedule row, in source order. -/
def transformEvents (schedules : List ScheduleRecord) (settings : Option Settings)
    (departments : List Department) (nowYear : Nat) : List CalendarEntry :=
  holidayEntries settings nowYear ++ schedules.map (scheduleEntry departments)

/-- JavaScript `String.prototype.toLowerCase`, character by character
(kernel-executable, unlike the byte-position recursion of the core
library's `String.toLower`, which computes the same string). -/
def toLowerStr (s : String) : String :=
  ⟨s.data.map Char.toLower⟩

/-- JavaScript `String.prototype.trim`: drop leading and trailing
whitespace. -/
def trimStr (s : String) : String :=
  ⟨((s.data.dropWhile Char.isWhitespace).reverse.dropWhile Char.isWhitespace).reverse⟩

/-- Whether `needle` is an initial segment of `hay` (character lists). -/
def isStartOf : List Char → List Char → Bool
  | [], _ => true
  | _ :: _, [] => false
  | a :: as, b :: bs => a == b && isStartOf as bs

/-- JavaScript `hay.includes(needle)`: some suffix of `hay` starts with
`needle`. -/
def hasSubstr : List Char → List Char → Bool
  | [], needle => isStartOf needle []
  | c :: t, needle => isStartOf needle (c :: t) || hasSubstr t needle

/-- JavaScript `String.prototype.includes` on Lean strings. -/
def strIncludes (hay needle : String) : Bool :=
  hasSubstr hay.data needle.data

/-- The description half of the search predicate: `(s.description &&
s.description.toLowerCase().includes(query))` — a null or empty
description is falsy and short-circuits to false. -/
def descMatches (query : String) : Option String → Bool
  | some d => if d = "" then false else strIncludes (toLowerStr d) query
  | none => false

/-- The match predicate of the search filter (src/js/app.js lines
486-489): `s.title.toLowerCase().includes(query) || (s.description &&
s.description.toLowerCase().includes(query))`. -/
def ciMatches (s : ScheduleRecord) (query : String) : Bool :=
  strIncludes (toLowerStr s.title) query || descMatches query s.description

/-- The query normalisation of the input handler (src/js/app.js line
480): `e.target.value.toLowerCase().trim()`. -/
def processQuery (raw : String) : String :=
  trimStr (toLowerStr raw)

/-- The search routine bound in `initCalendar` (src/js/app.js lines
479-512): a normalised query shorter than 2 characters performs no
search (`none`); otherwise the cached schedule list is filtered. -/
def search (schedules : List ScheduleRecord) (raw : String) :
    Option (List ScheduleRecord) :=
  let query := processQuery raw
  if query.length < 2 then none
  else some (schedules.filter (fun s => ciMatches s query))

/-- Modelled from the spec's words for claim comparison only (not part
of the source): the stepped cursor lands on the same day of the next
calendar month, rolling December into January of the next year. -/
def specSameDayNextMonth (a b : Int) : Prop :=
  let c := civilFromDays a
  civilFromDays b =
    (if c.2.1 = 12 then c.1 + 1 else c.1,
     if c.2.1 = 12 then 1 else c.2.1 + 1,
     c.2.2)

instance (a b : Int) : Decidable (specSameDayNextMonth a b) := by
  unfold specSameDayNextMonth
  exact inferInstance

/-- Modelled from the spec's words for claim comparison only (not part
of the source): the record's title, or its description when present,
contains the (already lowercased) query as a substring after
lowercasing. -/
def specCIMatch (s : ScheduleRecord) (q : String) : Prop :=
  (∃ l r, (toLowerStr s.title).data = l ++ q.data ++ r) ∨
    (∃ d l r, s.description = some d ∧ (toLowerStr d).data = l ++ q.data ++ r)

/-! ## Properties of the recurrence expander -/

theorem expandLoop_length_le (t : ScheduleTemplate) (f : Freq) (dur u : Int) :
    ∀ rem curr, (expandLoop t f dur u curr rem).length ≤ rem := by
  intro rem
  induction rem with
  | zero =>
    intro curr
    simp [expandLoop]
  | succ n ih =>
    intro curr
    rw [expandLoop]
    split
    · simp only [List.length_cons]
      exact Nat.succ_le_succ (ih (stepDate f curr))
    · simp

theorem expandLoop_duration (t : ScheduleTemplate) (f : Freq) (dur u : Int) :
    ∀ rem curr, ∀ i ∈ expandLoop t f dur u curr rem,
      i.end_date - i.start_date = dur := by
  intro rem
  induction rem with
  | zero =>
    intro curr i hi
    simp [expandLoop] at hi
  | succ n ih =>
    intro curr i hi
    rw [expandLoop] at hi
    by_cases hc : curr ≤ u
    · rw [if_pos hc] at hi
      rcases List.mem_cons.mp hi with h1 | h2
      · subst h1
        simp [mkInstance]
      · exact ih (stepDate f curr) i h2
    · rw [if_neg hc] at hi
      simp at hi

theorem expandLoop_cons (t : ScheduleTemplate) (f : Freq) (dur u curr : Int)
    (rem : Nat) (h : curr ≤ u) :
    expandLoop t f dur u curr (rem + 1) =
      mkInstance t curr (curr + dur) :: expandLoop t f dur u (stepDate f curr) rem := by
  rw [expandLoop]
  rw [if_pos h]

theorem expand_eq_of_lt (t : ScheduleTemplate) (p : RecurrencePolicy)
    (h : t.start_date < p.until_date) :
    expand t p = Except.ok
      (expandLoop t p.frequency (t.end_date - t.start_date) p.until_date t.start_date 52) := by
  unfold expand
  rw [if_neg (by omega : ¬ p.until_date ≤ t.start_date)]
  rw [withFallback,
    expandLoop_cons t p.frequency (t.end_date - t.start_date) p.until_date t.start_date 51 (le_of_lt h)]
  simp

/-- Claim C1: for every template and policy whose until date is strictly
after the template's start date, the expansion returns a non-empty
sequence, every instance's duration (end minus start) equals the
template's duration, and the sequence has at most 52 instances. -/
theorem expand_valid_nonempty_duration_bounded (t : ScheduleTemplate)
    (p : RecurrencePolicy) (h : t.start_date < p.until_date) :
    ∃ xs, expand t p = Except.ok xs ∧ xs ≠ [] ∧ xs.length ≤ 52 ∧
      ∀ i ∈ xs, i.end_date - i.start_date = t.end_date - t.start_date := by
  refine ⟨expandLoop t p.frequency (t.end_date - t.start_date) p.until_date t.start_date 52,
    expand_eq_of_lt t p h, ?_, ?_, ?_⟩
  · rw [expandLoop_cons t p.frequency (t.end_date - t.start_date) p.until_date t.start_date 51 (le_of_lt h)]
    simp
  · exact expandLoop_length_le t p.frequency (t.end_date - t.start_date) p.until_date 52 t.start_date
  · exact expandLoop_duration t p.frequency (t.end_date - t.start_date) p.until_date 52 t.start_date

/-- The spec's worked example: the Staff Meeting template. -/
def meetingTemplate : ScheduleTemplate :=
  { title := "Staff Meeting", dept_id := "d1", visibility := "public",
    description := none, is_printable := true, author_id := "u1",
    start_date := daysFromCivil 2025 3 3, end_date := daysFromCivil 2025 3 4 }

/-- The spec's worked example: weekly until 2025-03-24. -/
def weeklyPolicy : RecurrencePolicy :=
  { frequency := .weekly, until_date := daysFromCivil 2025 3 24 }

/-- Witness for claim C1 at the spec's worked example. -/
theorem expand_valid_nonempty_duration_bounded_witness :
    ∃ xs, expand meetingTemplate weeklyPolicy = Except.ok xs ∧ xs ≠ [] ∧
      xs.length ≤ 52 ∧
      ∀ i ∈ xs, i.end_date - i.start_date =
        meetingTemplate.end_date - meetingTemplate.start_date :=
  expand_valid_nonempty_duration_bounded meetingTemplate weeklyPolicy (by decide)

/-- Claim C3: with an until date at or before the start date the
expansion fails with `InvalidRecurrenceRange` and produces no
instances. -/
theorem expand_invalid_range_error (t : ScheduleTemplate) (p : RecurrencePolicy)
    (h : p.until_date ≤ t.start_date) :
    expand t p = Except.error RecurrenceError.InvalidRecurrenceRange := by
  unfold expand
  rw [if_pos h]

/-- A policy ending before the Staff Meeting template starts. -/
def backwardsPolicy : RecurrencePolicy :=
  { frequency := .weekly, until_date := daysFromCivil 2025 3 1 }

/-- Witness for claim C3 at a concrete backwards range. -/
theorem expand_invalid_range_error_witness :
    expand meetingTemplate backwardsPolicy =
      Except.error RecurrenceError.InvalidRecurrenceRange :=
  expand_invalid_range_error meetingTemplate backwardsPolicy (by decide)

/-- Claim C5: expanding the Staff Meeting template (2025-03-03 to
2025-03-04) weekly until 2025-03-24 yields exactly 4 instances starting
2025-03-03, 2025-03-10, 2025-03-17 and 2025-03-24 (the boundary date
included), each ending one day after its start. -/
theorem expand_weekly_example :
    expand meetingTemplate weeklyPolicy = Except.ok
      [ mkInstance meetingTemplate (daysFromCivil 2025 3 3) (daysFromCivil 2025 3 4),
        mkInstance meetingTemplate (daysFromCivil 2025 3 10) (daysFromCivil 2025 3 11),
        mkInstance meetingTemplate (daysFromCivil 2025 3 17) (daysFromCivil 2025 3 18),
        mkInstance meetingTemplate (daysFromCivil 2025 3 24) (daysFromCivil 2025 3 25) ] := by
  decide

/-- Claim C7: every successful expansion has at most 52 instances, and
whenever the until date is strictly after the start the expansion
succeeds (a policy reaching the safety bound is truncated, not
rejected). -/
theorem expand_bounded_truncates (t : ScheduleTemplate) (p : RecurrencePolicy) :
    (∀ xs, expand t p = Except.ok xs → xs.length ≤ 52) ∧
      (t.start_date < p.until_date → ∃ xs, expand t p = Except.ok xs) := by
  have hlen : (expandLoop t p.frequency (t.end_date - t.start_date) p.until_date t.start_date 52).length ≤ 52 :=
    expandLoop_length_le t p.frequency (t.end_date - t.start_date) p.until_date 52 t.start_date
  constructor
  · intro xs hxs
    unfold expand at hxs
    by_cases h : p.until_date ≤ t.start_date
    · rw [if_pos h] at hxs
      exact absurd hxs (by simp)
    · rw [if_neg h] at hxs
      rw [withFallback] at hxs
      cases hb : expandLoop t p.frequency (t.end_date - t.start_date) p.until_date t.start_date 52 with
      | nil =>
        rw [hb] at hxs
        simp only [List.isEmpty_nil, if_true, Except.ok.injEq] at hxs
        rw [← hxs]
        simp
      | cons a as =>
        rw [hb] at hxs
        simp only [List.isEmpty_cons, Bool.false_eq_true, if_false, Except.ok.injEq] at hxs
        rw [← hxs, ← hb]
        exact hlen
  · intro h
    exact ⟨_, expand_eq_of_lt t p h⟩

/-- A one-day template used to exercise the 52-iteration safety cap. -/
def truncTemplate : ScheduleTemplate :=
  { title := "Daily Standup", dept_id := "d1", visibility := "public",
    description := none, is_printable := false, author_id := "u1",
    start_date := 0, end_date := 1 }

/-- A weekly policy whose until date lies far beyond 52 weeks. -/
def farPolicy : RecurrencePolicy :=
  { frequency := .weekly, until_date := 100000 }

/-- Witness for claim C7: a far-future until date yields a successful,
truncated expansion of exactly 52 instances. -/
theorem expand_bounded_truncates_witness :
    (∃ xs, expand truncTemplate farPolicy = Except.ok xs ∧ xs.length ≤ 52) ∧
      (expand truncTemplate farPolicy).toOption.map List.length = some 52 := by
  constructor
  · obtain ⟨xs, hxs⟩ := (expand_bounded_truncates truncTemplate farPolicy).2 (by decide)
    exact ⟨xs, hxs, (expand_bounded_truncates truncTemplate farPolicy).1 xs hxs⟩
  · decide

/-- A template starting on the month-end date 2025-01-31. -/
def monthEndTemplate : ScheduleTemplate :=
  { title := "Month End Review", dept_id := "d1", visibility := "public",
    description := none, is_printable := true, author_id := "u1",
    start_date := daysFromCivil 2025 1 31, end_date := daysFromCivil 2025 2 1 }

/-- A monthly policy until 2025-03-31 for the month-end template. -/
def monthlyPolicy : RecurrencePolicy :=
  { frequency := .monthly, until_date := daysFromCivil 2025 3 31 }

/-- Counterexample to claim C2: expanding the 2025-01-31 template
monthly yields consecutive instances on 2025-01-31 and 2025-03-03 — the
stepped cursor does not land on the same day of the next calendar month
(February is skipped entirely). -/
theorem monthly_step_skips_month_cex :
    expand monthEndTemplate monthlyPolicy = Except.ok
      [ mkInstance monthEndTemplate (daysFromCivil 2025 1 31) (daysFromCivil 2025 2 1),
        mkInstance monthEndTemplate (daysFromCivil 2025 3 3) (daysFromCivil 2025 3 4) ] ∧
      civilFromDays (stepDate Freq.monthly (daysFromCivil 2025 1 31)) = (2025, 3, 3) ∧
      ¬ specSameDayNextMonth (daysFromCivil 2025 1 31)
          (stepDate Freq.monthly (daysFromCivil 2025 1 31)) := by
  decide

/-- Claim C2 (amended): the monthly advance adds one to the month index
with JavaScript `Date` day-of-month normalisation, deterministically.
When the start day exists in the next month the cursor lands on the
same day of the next calendar month (2025-03-03 → 2025-04-03), rolling
December into January of the next year (2025-12-15 → 2026-01-15); when
it does not, the cursor overflows past the month end into the following
month by the excess days (2025-01-31 → 2025-03-03; in a leap year
2024-01-31 → 2024-03-02; 2025-08-31 → 2025-10-01), so a month-end start
can skip a short calendar month. -/
theorem monthly_step_rollover_amended :
    stepDate Freq.monthly (daysFromCivil 2025 3 3) = daysFromCivil 2025 4 3 ∧
      specSameDayNextMonth (daysFromCivil 2025 3 3)
        (stepDate Freq.monthly (daysFromCivil 2025 3 3)) ∧
      stepDate Freq.monthly (daysFromCivil 2025 12 15) = daysFromCivil 2026 1 15 ∧
      specSameDayNextMonth (daysFromCivil 2025 12 15)
        (stepDate Freq.monthly (daysFromCivil 2025 12 15)) ∧
      stepDate Freq.monthly (daysFromCivil 2025 1 31) = daysFromCivil 2025 3 3 ∧
      stepDate Freq.monthly (daysFromCivil 2024 1 31) = daysFromCivil 2024 3 2 ∧
      stepDate Freq.monthly (daysFromCivil 2025 8 31) = daysFromCivil 2025 10 1 := by
  decide

/-! ## Properties of the calendar projector -/

theorem holidayEntries_display (settings : Option Settings) (now : Nat) :
    ∀ e ∈ holidayEntries settings now, e.display = some "background" := by
  intro e he
  cases settings with
  | none => simp [holidayEntries] at he
  | some st =>
    simp only [holidayEntries, List.mem_append, List.mem_map] at he
    rcases he with ⟨p, _, rfl⟩ | ⟨p, _, rfl⟩ <;> rfl

/-- Claim C4: for every input combination the projection is the
concatenation of the background (holiday) entries followed by the
foreground (schedule) entries; every entry of the first group is a
background entry and none of the second group is, and within each group
the source order of the input records is preserved (each group is the
in-order image of its input list; no sorting). -/
theorem transformEvents_background_first (schedules : List ScheduleRecord)
    (settings : Option Settings) (departments : List Department) (now : Nat) :
    ∃ bg fg, transformEvents schedules settings departments now = bg ++ fg ∧
      (∀ e ∈ bg, e.display = some "background") ∧
      (∀ e ∈ fg, e.display = none) ∧
      fg = schedules.map (scheduleEntry departments) ∧
      ∀ st, settings = some st →
        bg = st.fixed_holidays.map
            (fun p => fixedHolidayEntry (toString (jsOrNat st.academic_year now)) p.1 p.2)
          ++ st.variable_holidays.map (fun p => variableHolidayEntry p.1 p.2) := by
  refine ⟨holidayEntries settings now, schedules.map (scheduleEntry departments),
    rfl, holidayEntries_display settings now, ?_, rfl, ?_⟩
  · intro e he
    obtain ⟨s, _, rfl⟩ := List.mem_map.mp he
    rfl
  · intro st hst
    subst hst
    rfl

/-- Sample departments: a single active department. -/
def demoDepartments : List Department :=
  [ { id := "d1", dept_name := "교무부", dept_color := some "#ff0000",
      is_active := true, sort_order := 1 } ]

/-- Sample settings with one fixed and one variable holiday. -/
def demoSettings : Settings :=
  { fixed_holidays := [("0301", "삼일절")],
    variable_holidays := [("2025-05-05", "어린이날")],
    academic_year := some 2025 }

/-- Sample schedule rows: one known and one unknown department id. -/
def demoSchedules : List ScheduleRecord :=
  [ { id := "s1", title := "Staff Meeting", start_date := "2025-03-03",
      end_date := "2025-03-04", dept_id := "d1", description := some "Weekly sync",
      visibility := "public", is_printable := true },
    { id := "s2", title := "Board Review", start_date := "2025-03-05",
      end_date := "2025-03-06", dept_id := "ghost", description := none,
      visibility := "internal", is_printable := false } ]

/-- Witness for claim C4 at concrete sample data, with the inner
settings hypothesis discharged. -/
theorem transformEvents_background_first_witness :
    ∃ bg fg,
      transformEvents demoSchedules (some demoSettings) demoDepartments 2025 = bg ++ fg ∧
      (∀ e ∈ bg, e.display = some "background") ∧
      (∀ e ∈ fg, e.display = none) ∧
      fg = demoSchedules.map (scheduleEntry demoDepartments) ∧
      bg = demoSettings.fixed_holidays.map
          (fun p => fixedHolidayEntry (toString (jsOrNat demoSettings.academic_year 2025)) p.1 p.2)
        ++ demoSettings.variable_holidays.map (fun p => variableHolidayEntry p.1 p.2) := by
  obtain ⟨bg, fg, h1, h2, h3, h4, h5⟩ :=
    transformEvents_background_first demoSchedules (some demoSettings) demoDepartments 2025
  exact ⟨bg, fg, h1, h2, h3, h4, h5 demoSettings rfl⟩

/-- Claim C6: a schedule whose department id is absent from the
departments list is still projected as a foreground entry, carrying the
default color `#3788d8`; the projection is total, so no error is
raised. -/
theorem transformEvents_unknown_department_default (schedules : List ScheduleRecord)
    (settings : Option Settings) (departments : List Department) (now : Nat)
    (s : ScheduleRecord) (hs : s ∈ schedules)
    (hd : deptLookup departments s.dept_id = none) :
    scheduleEntry departments s ∈ transformEvents schedules settings departments now ∧
      (scheduleEntry departments s).backgroundColor = some "#3788d8" ∧
      (scheduleEntry departments s).borderColor = some "#3788d8" ∧
      (scheduleEntry departments s).id = some s.id ∧
      (scheduleEntry departments s).display = none := by
  refine ⟨List.mem_append_right _ (List.mem_map_of_mem _ hs), ?_, ?_, rfl, rfl⟩
  · simp [scheduleEntry, hd, jsOrStr]
  · simp [scheduleEntry, hd, jsOrStr]

/-- Witness for claim C6: the sample row referencing department
`ghost`, which the sample department list does not contain. -/
theorem transformEvents_unknown_department_default_witness :
    (demoSchedules.get ⟨1, by decide⟩) ∈ demoSchedules ∧
      scheduleEntry demoDepartments (demoSchedules.get ⟨1, by decide⟩)
          ∈ transformEvents demoSchedules (some demoSettings) demoDepartments 2025 ∧
      (scheduleEntry demoDepartments (demoSchedules.get ⟨1, by decide⟩)).backgroundColor
        = some "#3788d8" := by
  have h := transformEvents_unknown_department_default demoSchedules (some demoSettings)
    demoDepartments 2025 (demoSchedules.get ⟨1, by decide⟩)
    (demoSchedules.get_mem _ _) (by decide)
  exact ⟨demoSchedules.get_mem _ _, h.1, h.2.1⟩

/-- Claim C8 (amended): the projection is a pure function of
(schedules, settings, departments) whenever the settings carry a
nonzero academic year; with the academic year absent (or zero) the
output additionally depends on the ambient current year read via
`new Date().getFullYear()`. -/
theorem transformEvents_deterministic_amended (schedules : List ScheduleRecord)
    (st : Settings) (departments : List Department) (n n' : Nat) (y : Nat)
    (hy : st.academic_year = some y) (h0 : y ≠ 0) :
    transformEvents schedules (some st) departments n =
      transformEvents schedules (some st) departments n' := by
  simp only [transformEvents, holidayEntries, hy, jsOrNat, if_neg h0]

/-- Witness for claim C8 (amended) at the sample data. -/
theorem transformEvents_deterministic_amended_witness :
    transformEvents demoSchedules (some demoSettings) demoDepartments 2025 =
      transformEvents demoSchedules (some demoSettings) demoDepartments 2026 :=
  transformEvents_deterministic_amended demoSchedules demoSettings demoDepartments
    2025 2026 2025 rfl (by decide)

/-- Settings lacking an academic year, forcing the clock fallback. -/
def yearlessSettings : Settings :=
  { fixed_holidays := [("0301", "삼일절")], variable_holidays := [],
    academic_year := none }

/-- Counterexample to claim C8: with the academic year absent from the
settings, two invocations on identical (schedules, settings,
departments) but in different ambient years produce different outputs —
the fixed holiday is pinned to the current year of the invocation. -/
theorem transformEvents_clock_dependence_cex :
    transformEvents [] (some yearlessSettings) [] 2025 ≠
      transformEvents [] (some yearlessSettings) [] 2026 := by
  decide

/-- Claim C9: every fixed holiday `(mmdd, name)` in the settings is
projected as a full-day background entry whose start date concatenates
the academic year with the month and day digits of the code; at the
spec's example the projection of `"0301" : "Independence Day"` under
academic year 2025 is exactly one background entry dated 2025-03-01. -/
theorem transformEvents_fixed_holiday (schedules : List ScheduleRecord)
    (st : Settings) (departments : List Department) (now : Nat)
    (mmdd name : String) (hmem : (mmdd, name) ∈ st.fixed_holidays) :
    fixedHolidayEntry (toString (jsOrNat st.academic_year now)) mmdd name
        ∈ transformEvents schedules (some st) departments now ∧
      (fixedHolidayEntry (toString (jsOrNat st.academic_year now)) mmdd name).start
        = toString (jsOrNat st.academic_year now) ++ "-" ++ mmdd.take 2 ++ "-"
          ++ (mmdd.drop 2).take 2 ∧
      (fixedHolidayEntry (toString (jsOrNat st.academic_year now)) mmdd name).display
        = some "background" ∧
      (fixedHolidayEntry (toString (jsOrNat st.academic_year now)) mmdd name).allDay
        = some true ∧
      (fixedHolidayEntry (toString (jsOrNat st.academic_year now)) mmdd name).title
        = name := by
  refine ⟨?_, rfl, rfl, rfl, rfl⟩
  apply List.mem_append_left
  apply List.mem_append_left
  exact List.mem_map_of_mem (fun p => fixedHolidayEntry _ p.1 p.2) hmem

/-- The spec's example settings: one fixed holiday, year 2025. -/
def independenceSettings : Settings :=
  { fixed_holidays := [("0301", "Independence Day")], variable_holidays := [],
    academic_year := some 2025 }

/-- Witness for claim C9: the spec's example, including that the whole
output is exactly one background entry dated 2025-03-01. -/
theorem transformEvents_fixed_holiday_witness :
    (fixedHolidayEntry (toString (jsOrNat independenceSettings.academic_year 2025))
          "0301" "Independence Day"
        ∈ transformEvents [] (some independenceSettings) [] 2025 ∧
      (fixedHolidayEntry (toString (jsOrNat independenceSettings.academic_year 2025))
          "0301" "Independence Day").start
        = toString (jsOrNat independenceSettings.academic_year 2025) ++ "-"
          ++ ("0301" : String).take 2 ++ "-" ++ (("0301" : String).drop 2).take 2 ∧
      (fixedHolidayEntry (toString (jsOrNat independenceSettings.academic_year 2025))
          "0301" "Independence Day").display = some "background" ∧
      (fixedHolidayEntry (toString (jsOrNat independenceSettings.academic_year 2025))
          "0301" "Independence Day").allDay = some true ∧
      (fixedHolidayEntry (toString (jsOrNat independenceSettings.academic_year 2025))
          "0301" "Independence Day").title = "Independence Day") ∧
      transformEvents [] (some independenceSettings) [] 2025 =
        [ { id := none, title := "Independence Day", start := "2025-03-01",
            end_ := none, display := some "background",
            className := some "holiday-bg-event", allDay := some true,
            backgroundColor := none, borderColor := none, extendedProps := none } ] :=
  ⟨transformEvents_fixed_holiday [] independenceSettings [] 2025 "0301" "Independence Day"
    (by decide), by decide⟩

/-! ## Properties of the search filter -/

theorem isStartOf_iff (n : List Char) : ∀ h : List Char,
    isStartOf n h = true ↔ ∃ r, h = n ++ r := by
  induction n with
  | nil =>
    intro h
    simp [isStartOf]
  | cons a as ih =>
    intro h
    cases h with
    | nil => simp [isStartOf]
    | cons b bs =>
      simp only [isStartOf, Bool.and_eq_true, beq_iff_eq, List.cons_append, ih bs]
      constructor
      · rintro ⟨rfl, r, rfl⟩
        exact ⟨r, rfl⟩
      · rintro ⟨r, hr⟩
        injection hr with h1 h2
        exact ⟨h1.symm, r, h2⟩

theorem hasSubstr_iff (hay needle : List Char) :
    hasSubstr hay needle = true ↔ ∃ l r, hay = l ++ needle ++ r := by
  induction hay with
  | nil =>
    rw [hasSubstr, isStartOf_iff]
    constructor
    · rintro ⟨r, hr⟩
      exact ⟨[], r, by simpa using hr⟩
    · rintro ⟨l, r, hl⟩
      rcases List.append_eq_nil.mp hl.symm with ⟨h1, rfl⟩
      rcases List.append_eq_nil.mp h1 with ⟨rfl, rfl⟩
      exact ⟨[], rfl⟩
  | cons c t ih =>
    rw [hasSubstr, Bool.or_eq_true, isStartOf_iff, ih]
    constructor
    · rintro (⟨r, hr⟩ | ⟨l, r, hl⟩)
      · exact ⟨[], r, by simpa using hr⟩
      · exact ⟨c :: l, r, by simp [hl]⟩
    · rintro ⟨l, r, hl⟩
      cases l with
      | nil =>
        exact Or.inl ⟨r, by simpa using hl⟩
      | cons x xs =>
        injection hl with h1 h2
        exact Or.inr ⟨xs, r, h2⟩

theorem ciMatches_iff (s : ScheduleRecord) (q : String) (hq : q.data ≠ []) :
    ciMatches s q = true ↔ specCIMatch s q := by
  unfold ciMatches specCIMatch
  rw [Bool.or_eq_true]
  apply or_congr
  · exact hasSubstr_iff (toLowerStr s.title).data q.data
  · cases hd : s.description with
    | none => simp [descMatches]
    | some d =>
      rw [descMatches]
      by_cases hde : d = ""
      · subst hde
        rw [if_pos rfl]
        constructor
        · intro h
          exact absurd h (by simp)
        · rintro ⟨d', l, r, hd', hl⟩
          exfalso
          injection hd' with hdd
          subst hdd
          have hdata : (toLowerStr "").data = ([] : List Char) := by decide
          rw [hdata] at hl
          rcases List.append_eq_nil.mp hl.symm with ⟨h1, rfl⟩
          rcases List.append_eq_nil.mp h1 with ⟨rfl, h3⟩
          exact hq h3
      · rw [if_neg hde]
        rw [show strIncludes (toLowerStr d) q
            = hasSubstr (toLowerStr d).data q.data from rfl]
        rw [hasSubstr_iff]
        constructor
        · rintro ⟨l, r, hl⟩
          exact ⟨d, l, r, rfl, hl⟩
        · rintro ⟨d', l, r, hd', hl⟩
          injection hd' with hdd
          subst hdd
          exact ⟨l, r, hl⟩

/-- Claim C10: with a normalised query of length at least 2, the search
returns exactly those records whose title — or description, when
present — contains the query as a substring after lowercasing, and the
result is a sublist of the input (original order, no ranking). -/
theorem search_filter_characterization (schedules : List ScheduleRecord)
    (raw : String) (h2 : 2 ≤ (processQuery raw).length) :
    ∃ res, search schedules raw = some res ∧
      res.Sublist schedules ∧
      ∀ s, s ∈ res ↔ s ∈ schedules ∧ specCIMatch s (processQuery raw) := by
  have hq : (processQuery raw).data ≠ [] := by
    intro hnil
    have hlen : (processQuery raw).length = (processQuery raw).data.length := rfl
    rw [hnil] at hlen
    simp at hlen
    omega
  refine ⟨schedules.filter (fun s => ciMatches s (processQuery raw)), ?_, ?_, ?_⟩
  · unfold search
    rw [if_neg (by omega)]
  · exact List.filter_sublist _
  · intro s
    rw [List.mem_filter]
    exact and_congr_right fun _ => ciMatches_iff s (processQuery raw) hq

/-- Witness for claim C10: searching the sample rows for "MEET"
(normalised to "meet", length 4). -/
theorem search_filter_characterization_witness :
    ∃ res, search demoSchedules "MEET" = some res ∧
      res.Sublist demoSchedules ∧
      ∀ s, s ∈ res ↔ s ∈ demoSchedules ∧ specCIMatch s (processQuery "MEET") :=
  search_filter_characterization demoSchedules "MEET" (by decide)

end GOELink
